import Mathlib

set_option autoImplicit false

/-
Verification of the crowd-orchestra backend: the session/participant state
manager (backend/core/state.py), the rate limiter, inactivity reaper and
socket event dispatcher (backend/core/socket_server.py), and the outbound
sound-control sender (backend/core/osc_sender.py).

Modelling conventions:
- Python dicts are association lists in insertion order; updating an existing
  key keeps its position, inserting a fresh key appends.
- Timestamps (time.monotonic() and datetime.utcnow()) are rationals; the
  datetime ISO formatting is abstracted (a snapshot carries the raw number).
- JSON-like payload values are the inductive type Js; Python operations that
  can raise on malformed values return Except PyErr.
-/

namespace Orchestra

/-! Association lists with Python dict semantics. -/

namespace Dict

def lookup {α : Type} (k : String) : List (String × α) → Option α
  | [] => none
  | (k2, v) :: rest => if k2 = k then some v else lookup k rest

/-- Python `d[k] = v`: replace in place when the key exists, append otherwise. -/
def set {α : Type} (k : String) (v : α) : List (String × α) → List (String × α)
  | [] => [(k, v)]
  | (k2, v2) :: rest => if k2 = k then (k, v) :: rest else (k2, v2) :: set k v rest

/-- Python `d.pop(k, None)`: drop the entry for `k` when present. -/
def erase {α : Type} (k : String) : List (String × α) → List (String × α)
  | [] => []
  | (k2, v2) :: rest => if k2 = k then rest else (k2, v2) :: erase k rest

theorem lookup_set_self {α : Type} (k : String) (v : α) :
    ∀ l : List (String × α), lookup k (set k v l) = some v := by
  intro l
  induction l with
  | nil => simp [lookup, set]
  | cons hd tl ih =>
    by_cases h : hd.1 = k
    · simp [set, h, lookup]
    · simp [set, h, lookup, ih]

theorem lookup_set_ne {α : Type} (k k2 : String) (v : α) (hne : k2 ≠ k) :
    ∀ l : List (String × α), lookup k2 (set k v l) = lookup k2 l := by
  intro l
  induction l with
  | nil => simp [lookup, set, Ne.symm hne]
  | cons hd tl ih =>
    by_cases h : hd.1 = k
    · subst h
      simp [set, lookup, Ne.symm hne]
    · by_cases h2 : hd.1 = k2
      · simp [set, h, lookup, h2, hne]
      · simp [set, h, lookup, h2, ih]

end Dict

/-! JSON values as delivered by the socket transport. -/

inductive Js where
  | null
  | bool (b : Bool)
  | num (q : ℚ)
  | str (s : String)
  | arr (elems : List Js)
  | obj (fields : List (String × Js))

/-- Python exception kinds that the handlers can raise on malformed input. -/
inductive PyErr where
  | attributeError
  | typeError
  | valueError
deriving Repr, DecidableEq

namespace Js

/-- Python truthiness: None, False, 0, empty string/list/dict are falsy. -/
def truthy : Js → Bool
  | .null => false
  | .bool b => b
  | .num q => decide (q ≠ 0)
  | .str s => decide (s ≠ "")
  | .arr xs => !xs.isEmpty
  | .obj kvs => !kvs.isEmpty

/-- Python `x or y`. -/
def orElse (x y : Js) : Js := if x.truthy then x else y

def isNull : Js → Bool
  | .null => true
  | _ => false

def isStr : Js → Bool
  | .str _ => true
  | _ => false

def isNum : Js → Bool
  | .num _ => true
  | _ => false

/-- A list whose elements are all numbers (a well-formed activation vector). -/
def isNumArr : Js → Bool
  | .arr xs => xs.all isNum
  | _ => false

/-- Python `payload.get(k)`: raises AttributeError unless the receiver is a
dict; a missing key yields None (here: null). -/
def get : Js → String → Except PyErr Js
  | .obj kvs, k => .ok ((Dict.lookup k kvs).getD .null)
  | _, _ => .error .attributeError

/-- Python `x.lower()`: AttributeError unless `x` is a string. -/
def lowerStr : Js → Except PyErr String
  | .str s => .ok s.toLower
  | _ => .error .attributeError

/-- Lookup of a key in a JSON object, none for non-objects. -/
def objLookup : Js → String → Option Js
  | .obj kvs, k => Dict.lookup k kvs
  | _, _ => none

/-- Key list of a JSON object, `[]` for non-objects. -/
def objKeys : Js → List String
  | .obj kvs => kvs.map Prod.fst
  | _ => []

end Js

/-! Embedding of backend/core/state.py (the per-session state manager). -/

/-- ParticipantState from state.py. `output` is the latest classifier output
layer (10 values); `canvas` a base64 data URL blob. -/
structure ParticipantState where
  socket_id : String
  instrument : String
  username : String
  canvas : Option String
  output : Option (List ℚ)
  last_seen : ℚ
deriving Repr, DecidableEq

/-- ChordPayload from state.py: output layer values plus instrument. -/
structure ChordPayload where
  output : List ℚ
  instrument : String
deriving Repr, DecidableEq

/-- SessionState from state.py: participants keyed by socket id plus the
single optional conductor. -/
structure SessionState where
  session_id : String
  participants : List (String × ParticipantState)
  conductor_socket_id : Option String
deriving Repr, DecidableEq

/-- The public per-participant fields emitted by SessionState.serialize
(socketId, instrument, username, canvas, lastSeen - no output vector). -/
def serializeParticipant (p : ParticipantState) : Js :=
  Js.obj
    [ ("socketId", Js.str p.socket_id)
    , ("instrument", Js.str p.instrument)
    , ("username", Js.str p.username)
    , ("canvas", match p.canvas with | none => Js.null | some c => Js.str c)
    , ("lastSeen", Js.num p.last_seen) ]

/-- SessionState.serialize from state.py: sessionId, participants (public
fields, in insertion order), hasConductor, participantCount. -/
def SessionState.serialize (st : SessionState) : Js :=
  Js.obj
    [ ("sessionId", Js.str st.session_id)
    , ("participants", Js.arr (st.participants.map (fun kv => serializeParticipant kv.2)))
    , ("hasConductor", Js.bool st.conductor_socket_id.isSome)
    , ("participantCount", Js.num st.participants.length) ]

/-- SessionState.get_participant_chord: `if not participant or not
participant.output: return None` - the output check is list truthiness, so a
missing participant, an unset output, and an empty output all yield none. -/
def SessionState.get_participant_chord (st : SessionState) (socket_id : String) :
    Option ChordPayload :=
  match Dict.lookup socket_id st.participants with
  | none => none
  | some p =>
    match p.output with
    | none => none
    | some out => if out = [] then none else some ⟨out, p.instrument⟩

/-- SessionManager from state.py: all active sessions. -/
structure SessionManager where
  sessions : List (String × SessionState)
deriving Repr, DecidableEq

/-- SessionManager._get_or_create. Python mutates in place, so every method
here returns its result together with the updated manager. -/
def SessionManager.get_or_create (m : SessionManager) (session_id : String) :
    SessionState × SessionManager :=
  match Dict.lookup session_id m.sessions with
  | some s => (s, m)
  | none =>
    let s : SessionState := ⟨session_id, [], none⟩
    (s, ⟨Dict.set session_id s m.sessions⟩)

/-- SessionManager.join_participant: insert or overwrite the record with
fresh defaults; `username or "anonymous"` replaces only the empty string
(Python string truthiness). `now` stands for datetime.utcnow(). -/
def SessionManager.join_participant (m : SessionManager)
    (session_id socket_id instrument username : String) (now : ℚ) :
    SessionState × SessionManager :=
  let sm := m.get_or_create session_id
  let p : ParticipantState :=
    { socket_id := socket_id
      instrument := instrument
      username := if username = "" then "anonymous" else username
      canvas := none
      output := none
      last_seen := now }
  let session2 := { sm.1 with participants := Dict.set socket_id p sm.1.participants }
  (session2, ⟨Dict.set session_id session2 sm.2.sessions⟩)

/-- SessionManager.join_conductor: success is False whenever a conductor
already exists (the occupant is not inspected), True otherwise. -/
def SessionManager.join_conductor (m : SessionManager) (session_id socket_id : String) :
    (SessionState × Bool) × SessionManager :=
  let sm := m.get_or_create session_id
  match sm.1.conductor_socket_id with
  | some _ => ((sm.1, false), sm.2)
  | none =>
    let session2 := { sm.1 with conductor_socket_id := some socket_id }
    ((session2, true), ⟨Dict.set session_id session2 sm.2.sessions⟩)

/-- SessionManager.update_participant: none when the session or the
participant is unknown; otherwise each field provided (not None) is applied,
an output vector replaces in full, and last_seen is set to now. -/
def SessionManager.update_participant (m : SessionManager)
    (session_id socket_id : String) (canvas : Option String)
    (output : Option (List ℚ)) (instrument : Option String) (now : ℚ) :
    Option SessionState × SessionManager :=
  match Dict.lookup session_id m.sessions with
  | none => (none, m)
  | some session =>
    match Dict.lookup socket_id session.participants with
    | none => (none, m)
    | some p =>
      let p2 : ParticipantState :=
        { p with
          canvas := match canvas with | none => p.canvas | some c => some c
          output := match output with | none => p.output | some o => some o
          instrument := match instrument with | none => p.instrument | some i => i
          last_seen := now }
      let session2 := { session with participants := Dict.set socket_id p2 session.participants }
      (some session2, ⟨Dict.set session_id session2 m.sessions⟩)

/-- SessionManager.get_chord_for_trigger. -/
def SessionManager.get_chord_for_trigger (m : SessionManager)
    (session_id socket_id : String) : Option ChordPayload :=
  match Dict.lookup session_id m.sessions with
  | none => none
  | some session => session.get_participant_chord socket_id

/-- SessionManager.snapshot. -/
def SessionManager.snapshot (m : SessionManager) (session_id : String) : Option Js :=
  match Dict.lookup session_id m.sessions with
  | none => none
  | some session => some session.serialize

/-! Embedding of backend/core/socket_server.py. -/

def RATE_LIMIT_MS : ℚ := 80

def RATE_LIMIT_SEC : ℚ := RATE_LIMIT_MS / 1000

def INACTIVITY_TIMEOUT_SEC : ℚ := 120

/-- The _rate_ok helper: admit iff at least the cooldown has elapsed since
the last admitted timestamp for this socket (absent entries default to 0);
record `now` only on admission. -/
def rate_ok (store : List (String × ℚ)) (sid : String) (now : ℚ) :
    Bool × List (String × ℚ) :=
  let last := (Dict.lookup sid store).getD 0
  if now - last < RATE_LIMIT_SEC then (false, store)
  else (true, Dict.set sid now store)

/-! Embedding of backend/core/osc_sender.py. Float coercion and iteration
follow Python semantics; the UDP send itself is fire-and-forget and its
OSError is caught inside the sender, so it never surfaces here. -/

/-- Digits of a decimal literal to a natural number (none on a non-digit). -/
def digitsToNat : List Char → Option Nat
  | [] => some 0
  | c :: rest =>
    if c.isDigit then (digitsToNat rest).map (fun n => (c.toNat - 48) * 10 ^ rest.length + n)
    else none

/-- Python float() on a string, simplified to plain decimal literals
(optional sign, digits, optional fractional part); exponents, inf/nan and
surrounding whitespace are not modelled. -/
def parseDecimal (s : String) : Option ℚ :=
  let signed : ℚ × List Char :=
    match s.data with
    | '-' :: cs => (-1, cs)
    | '+' :: cs => (1, cs)
    | cs => (1, cs)
  let intPart := signed.2.takeWhile Char.isDigit
  let rest := signed.2.drop intPart.length
  match rest with
  | [] =>
    if intPart = [] then none
    else (digitsToNat intPart).map (fun n => signed.1 * n)
  | '.' :: frac =>
    if intPart = [] ∧ frac = [] then none
    else if frac.all Char.isDigit then
      (digitsToNat intPart).bind (fun n =>
        (digitsToNat frac).map (fun f =>
          signed.1 * ((n : ℚ) + (f : ℚ) / 10 ^ frac.length)))
    else none
  | _ => none

namespace Js

/-- Python float(v): numbers and booleans coerce, strings are parsed
(ValueError on failure), anything else is a TypeError. -/
def toFloat : Js → Except PyErr ℚ
  | .num q => .ok q
  | .bool b => .ok (if b then 1 else 0)
  | .str s =>
    match parseDecimal s with
    | some q => .ok q
    | none => .error .valueError
  | _ => .error .typeError

/-- Python `for v in x`: lists yield elements, strings yield characters,
dicts yield their keys; other values are not iterable. -/
def iterate : Js → Except PyErr (List Js)
  | .arr xs => .ok xs
  | .str s => .ok (s.data.map (fun c => .str (String.mk [c])))
  | .obj kvs => .ok (kvs.map (fun kv => .str kv.1))
  | _ => .error .typeError

/-- The value a JSON element contributes to a numeric max comparison:
numbers and booleans compare, anything else is a TypeError (comparisons
between other value kinds are modelled as TypeError). -/
def toCmpNum : Js → Except PyErr ℚ
  | .num q => .ok q
  | .bool b => .ok (if b then (1 : ℚ) else 0)
  | _ => .error .typeError

/-- The running fold of Python max over the remaining sequence. -/
def maxFold : ℚ → List Js → Except PyErr ℚ
  | acc, [] => .ok acc
  | acc, y :: rest => do
    let q ← toCmpNum y
    maxFold (max acc q) rest

/-- Python max() over a sequence of values: ValueError on an empty
sequence, then a running numeric comparison. -/
def maxNum : List Js → Except PyErr ℚ
  | [] => .error .valueError
  | x :: rest => do
    let q0 ← toCmpNum x
    maxFold q0 rest

end Js

/-- Python `[float(v) for v in ...]`: coerce each element, propagating the
first failure. -/
def mapFloats : List Js → Except PyErr (List ℚ)
  | [] => .ok []
  | x :: rest => do
    let q ← x.toFloat
    let qs ← mapFloats rest
    .ok (q :: qs)

/-- One outbound UDP sound-control message: an address plus its argument
list (a username string may precede the floats on the crowd path). -/
structure OscMsg where
  address : String
  args : List Js

/-- OscSender._send_vector: normalize the iterable to floats. -/
def sendVector (address : String) (values : Js) : Except PyErr OscMsg := do
  let elems ← values.iterate
  let floats ← mapFloats elems
  .ok ⟨address, floats.map Js.num⟩

/-- OscSender.send_solo_activations: three addressed vectors; the logging
line then computes `max(range(len(output)), key=...)` and `max(output)`,
which raises ValueError when output is empty - only OSError is caught. -/
def send_solo_activations (hidden1 hidden2 output : Js) :
    Except PyErr (List OscMsg) := do
  let m1 ← sendVector "/solo/hidden1" hidden1
  let m2 ← sendVector "/solo/hidden2" hidden2
  let m3 ← sendVector "/solo/output" output
  let elems ← output.iterate
  let _ ← Js.maxNum elems
  .ok [m1, m2, m3]

/-- OscSender.send_crowd_chord: `instrument.lower().strip() or "pad"` runs
before the try block (AttributeError on a non-string instrument escapes);
the payload is the raw username (`or "anon"`) followed by float-coerced
output values; the logging line computes `max(output)`. -/
def send_crowd_chord (instrument username output : Js) : Except PyErr OscMsg := do
  let lowered ← instrument.lowerStr
  let safe := if lowered.trim = "" then "pad" else lowered.trim
  let elems ← output.iterate
  let floats ← mapFloats elems
  let _ ← Js.maxNum elems
  .ok ⟨"/crowd/" ++ safe ++ "/chord", (username.orElse (.str "anon")) :: floats.map Js.num⟩

/-! The global show manager used by socket_server.py. Its module is not part
of the provided sources (socket_server.py calls a session-less manager:
join_conductor(sid) -> bool, join_participant(socket_id, ...), snapshot(),
get_participant(sid), remove_inactive(timeout), leave(sid)); it is modelled
here from spec sections 3, 4.1, 4.2 and 4.4 (the single-global-show variant
of the near-duplicate state.py design). Payload-supplied fields are stored
as the JSON values the handlers pass in, with null standing for Python None. -/

/-- Modelled from the spec: the participant record of the single global show
(section 3); canvas and output are null until first set. -/
structure Part where
  socket_id : String
  instrument : Js
  username : Js
  canvas : Js
  output : Js
  last_seen : ℚ

/-- Modelled from the spec: Show State (section 3) - all participants plus
the conductor slot. -/
structure ShowState where
  participants : List (String × Part)
  conductor_socket_id : Option String

namespace ShowState

/-- Modelled from the spec: Participant Store join (section 4.1) - insert or
overwrite with fresh defaults, canvas/output reset to absent, lastSeen now. -/
def join_participant (st : ShowState) (socket_id : String)
    (instrument username : Js) (now : ℚ) : ShowState :=
  let p : Part :=
    { socket_id := socket_id
      instrument := instrument
      username := username
      canvas := Js.null
      output := Js.null
      last_seen := now }
  { st with participants := Dict.set socket_id p st.participants }

/-- Modelled from the spec: Conductor Slot claim (section 4.2) - true when
unoccupied or occupied by the claimer itself, false otherwise (no mutation). -/
def join_conductor (st : ShowState) (socket_id : String) : Bool × ShowState :=
  match st.conductor_socket_id with
  | none => (true, { st with conductor_socket_id := some socket_id })
  | some c =>
    if c = socket_id then (true, st)
    else (false, st)

/-- Modelled from the spec: Participant Store update (section 4.1) - false
when the id is unknown; otherwise apply exactly the provided (non-null)
fields, replace the output vector in full, set lastSeen to now. -/
def update_participant (st : ShowState) (socket_id : String)
    (canvas output instrument : Js) (now : ℚ) : Bool × ShowState :=
  match Dict.lookup socket_id st.participants with
  | none => (false, st)
  | some p =>
    let p2 : Part :=
      { p with
        canvas := if canvas.isNull then p.canvas else canvas
        output := if output.isNull then p.output else output
        instrument := if instrument.isNull then p.instrument else instrument
        last_seen := now }
    (true, { st with participants := Dict.set socket_id p2 st.participants })

/-- Modelled from the spec: Participant Store get (section 4.1). -/
def get_participant (st : ShowState) (socket_id : String) : Option Part :=
  Dict.lookup socket_id st.participants

/-- The chord for a trigger, mirroring SessionState.get_participant_chord of
the near-duplicate state.py: the output presence check is truthiness, so an
unset and an empty output both yield none. -/
def get_chord_for_trigger (st : ShowState) (socket_id : String) :
    Option (Js × Js) :=
  match Dict.lookup socket_id st.participants with
  | none => none
  | some p => if p.output.truthy then some (p.output, p.instrument) else none

/-- Modelled from the spec: disconnect cleanup (section 4.5) - remove the
participant entry if present, release the conductor slot if held by this
socket; report whether anything changed. -/
def leave (st : ShowState) (socket_id : String) : Bool × ShowState :=
  let hadPart := (Dict.lookup socket_id st.participants).isSome
  let hadCond := st.conductor_socket_id = some socket_id
  let st2 : ShowState :=
    { participants := Dict.erase socket_id st.participants
      conductor_socket_id := if hadCond then none else st.conductor_socket_id }
  (hadPart || hadCond, st2)

/-- Modelled from the spec: evictOlderThan (section 4.1) via the reaper's
cutoff (section 4.4) - remove every entry with lastSeen < now - timeout and
return the removed count. -/
def remove_inactive (st : ShowState) (timeout now : ℚ) : ℕ × ShowState :=
  let cutoff := now - timeout
  let keep := st.participants.filter (fun kv => decide (cutoff ≤ kv.2.last_seen))
  (st.participants.length - keep.length, { st with participants := keep })

/-- Count of participants per instrument tag, in first-seen order; only
string tags are representable as JSON object keys. -/
def instrumentHistogram (ps : List (String × Part)) : List (String × ℕ) :=
  ps.foldl (fun acc kv =>
    match kv.2.instrument with
    | .str s =>
      match Dict.lookup s acc with
      | some n => Dict.set s (n + 1) acc
      | none => acc ++ [(s, 1)]
    | _ => acc) []

/-- Modelled from the spec: snapshot (section 3) - ordered public fields (no
raw output vector), participant count, conductor presence, instrument mix. -/
def snapshot (st : ShowState) : Js :=
  Js.obj
    [ ("participants", Js.arr (st.participants.map (fun kv =>
        Js.obj
          [ ("socketId", Js.str kv.2.socket_id)
          , ("instrument", kv.2.instrument)
          , ("username", kv.2.username)
          , ("canvas", kv.2.canvas)
          , ("lastSeen", Js.num kv.2.last_seen) ])))
    , ("participantCount", Js.num st.participants.length)
    , ("hasConductor", Js.bool st.conductor_socket_id.isSome)
    , ("instrumentMix", Js.obj ((instrumentHistogram st.participants).map
        (fun kv => (kv.1, Js.num kv.2)))) ]

end ShowState

/-- The dispatcher's mutable state: the show plus the two per-socket
rate-limit timestamp maps (_last_canvas and _last_trigger). -/
structure ServerState where
  show_state : ShowState
  last_canvas : List (String × ℚ)
  last_trigger : List (String × ℚ)

/-- Destination of an outbound socket emit. -/
inductive Dest where
  | toSid (sid : String)
  | room (name : String)

/-- One outbound socket emit, recorded by event name and destination
(payload contents are tracked only where a claim needs them). -/
structure Emit where
  event : String
  dest : Dest

/-- Everything a handler produces: the updated server state, the emits in
order, and the outbound sound-control messages. -/
structure HandlerOut where
  st : ServerState
  emits : List Emit
  osc : List OscMsg

/-- The connect handler: private welcome with the socket id (the one-time
start of the cleanup task is a scheduling effect, not modelled). -/
def handle_connect (st : ServerState) (sid : String) : Except PyErr HandlerOut :=
  .ok ⟨st, [⟨"system:welcome", .toSid sid⟩], []⟩

/-- The solo:join handler: enter the solo room (rooms are not modelled) and
acknowledge privately; the payload is never inspected. -/
def handle_solo_join (st : ServerState) (sid : String) (data : Js) :
    Except PyErr HandlerOut :=
  .ok ⟨st, [⟨"solo:joined", .toSid sid⟩], []⟩

/-- The solo:activation handler: missing fields drop silently; otherwise the
three vectors are forwarded to the solo sender. -/
def handle_solo_activation (st : ServerState) (sid : String) (data : Js) :
    Except PyErr HandlerOut := do
  let payload := data.orElse (Js.obj [])
  let hidden1 ← payload.get "hidden1"
  let hidden2 ← payload.get "hidden2"
  let output ← payload.get "output"
  if hidden1.isNull || hidden2.isNull || output.isNull then
    .ok ⟨st, [], []⟩
  else do
    let msgs ← send_solo_activations hidden1 hidden2 output
    .ok ⟨st, [], msgs⟩

/-- The crowd:join handler: role defaults to participant and is lowercased
(AttributeError on a truthy non-string role or a truthy non-dict payload);
a failed conductor claim gets a private crowd:error; a successful join of
either role gets a private crowd:joined then a crowd:snapshot broadcast. -/
def handle_crowd_join (st : ServerState) (sid : String) (data : Js) (now : ℚ) :
    Except PyErr HandlerOut := do
  let payload := data.orElse (Js.obj [])
  let roleRaw ← payload.get "role"
  let role ← (roleRaw.orElse (Js.str "participant")).lowerStr
  let usernameRaw ← payload.get "username"
  let labelRaw ← payload.get "label"
  let username := (usernameRaw.orElse labelRaw).orElse (Js.str "anonymous")
  let instrumentRaw ← payload.get "instrument"
  let instrument := instrumentRaw.orElse (Js.str "pad")
  if role = "conductor" then
    let res := st.show_state.join_conductor sid
    if !res.1 then
      .ok ⟨{ st with show_state := res.2 }, [⟨"crowd:error", .toSid sid⟩], []⟩
    else
      .ok ⟨{ st with show_state := res.2 },
        [⟨"crowd:joined", .toSid sid⟩, ⟨"crowd:snapshot", .room "crowd"⟩], []⟩
  else
    let show2 := st.show_state.join_participant sid instrument username now
    .ok ⟨{ st with show_state := show2 },
      [⟨"crowd:joined", .toSid sid⟩, ⟨"crowd:snapshot", .room "crowd"⟩], []⟩

/-- The canvas:update handler: rate-limited (canvas class); an unknown
participant drops silently; otherwise update then broadcast a snapshot. -/
def handle_canvas_update (st : ServerState) (sid : String) (data : Js) (now : ℚ) :
    Except PyErr HandlerOut := do
  let gate := rate_ok st.last_canvas sid now
  let st1 := { st with last_canvas := gate.2 }
  if !gate.1 then .ok ⟨st1, [], []⟩
  else do
    let payload := data.orElse (Js.obj [])
    let canvas ← payload.get "canvas"
    let output ← payload.get "output"
    let instrument ← payload.get "instrument"
    let upd := st1.show_state.update_participant sid canvas output instrument now
    let st2 := { st1 with show_state := upd.2 }
    if !upd.1 then .ok ⟨st2, [], []⟩
    else .ok ⟨st2, [⟨"crowd:snapshot", .room "crowd"⟩], []⟩

/-- The chord:trigger handler: rate-limited (trigger class); fresh
output/instrument fields are applied first; a missing participant or an
untruthy output drops silently; otherwise one crowd sound-control send and
a chord:played broadcast (no full snapshot on this path). -/
def handle_chord_trigger (st : ServerState) (sid : String) (data : Js) (now : ℚ) :
    Except PyErr HandlerOut := do
  let gate := rate_ok st.last_trigger sid now
  let st1 := { st with last_trigger := gate.2 }
  if !gate.1 then .ok ⟨st1, [], []⟩
  else do
    let payload := data.orElse (Js.obj [])
    let output ← payload.get "output"
    let instrument ← payload.get "instrument"
    let show2 :=
      if !output.isNull || !instrument.isNull then
        (st1.show_state.update_participant sid Js.null output instrument now).2
      else st1.show_state
    let st2 := { st1 with show_state := show2 }
    match show2.get_chord_for_trigger sid, show2.get_participant sid with
    | some chord, some participant => do
      let msg ← send_crowd_chord chord.2 participant.username chord.1
      .ok ⟨st2, [⟨"chord:played", .room "crowd"⟩], [msg]⟩
    | _, _ => .ok ⟨st2, [], []⟩

/-- The disconnect handler: drop both rate-limiter entries, leave the show,
and broadcast a snapshot only when the show actually changed. -/
def handle_disconnect (st : ServerState) (sid : String) : Except PyErr HandlerOut :=
  let lc := Dict.erase sid st.last_canvas
  let lt := Dict.erase sid st.last_trigger
  let res := st.show_state.leave sid
  let st2 : ServerState := ⟨res.2, lc, lt⟩
  if res.1 then .ok ⟨st2, [⟨"crowd:snapshot", .room "crowd"⟩], []⟩
  else .ok ⟨st2, [], []⟩

/-- One tick of the _cleanup_inactive reaper task: evict participants idle
beyond the timeout and broadcast a snapshot only when the removed count is
nonzero. -/
def cleanup_tick (st : ServerState) (now : ℚ) : ServerState × List Emit :=
  let res := st.show_state.remove_inactive INACTIVITY_TIMEOUT_SEC now
  let st2 := { st with show_state := res.2 }
  if res.1 = 0 then (st2, [])
  else (st2, [⟨"crowd:snapshot", .room "crowd"⟩])

/-- The inbound event kinds the dispatcher handles. -/
inductive Event where
  | connect
  | soloJoin
  | soloActivation
  | crowdJoin
  | canvasUpdate
  | chordTrigger
  | disconnectEv

/-- The event dispatcher: route one inbound event to its handler. -/
def dispatch (ev : Event) (st : ServerState) (sid : String) (data : Js) (now : ℚ) :
    Except PyErr HandlerOut :=
  match ev with
  | .connect => handle_connect st sid
  | .soloJoin => handle_solo_join st sid data
  | .soloActivation => handle_solo_activation st sid data
  | .crowdJoin => handle_crowd_join st sid data now
  | .canvasUpdate => handle_canvas_update st sid data now
  | .chordTrigger => handle_chord_trigger st sid data now
  | .disconnectEv => handle_disconnect st sid

/-! Claims about the state manager (backend/core/state.py). -/

/-- Reduction lemma: a claim on an occupied conductor slot returns the
session and false, and leaves the manager untouched. -/
theorem join_conductor_occupied (m : SessionManager) (session_id socket_id c : String)
    (s : SessionState) (hs : Dict.lookup session_id m.sessions = some s)
    (hc : s.conductor_socket_id = some c) :
    m.join_conductor session_id socket_id = ((s, false), m) := by
  unfold SessionManager.join_conductor SessionManager.get_or_create
  rw [hs]
  simp [hc]

/-- C2 counterexample: with the conductor slot of session "s" already
occupied by socket "a", a repeated claim by "a" itself returns false (the
code rejects any claim while a conductor exists, without comparing ids),
refuting the stated idempotent re-grant; the occupant does remain "a". -/
theorem join_conductor_same_id_cex :
    ((SessionManager.mk [("s", ⟨"s", [], some "a"⟩)]).join_conductor "s" "a").1.2 = false
    ∧ ((SessionManager.mk [("s", ⟨"s", [], some "a"⟩)]).join_conductor "s" "a").1.1.conductor_socket_id
        = some "a" :=
  ⟨rfl, rfl⟩

/-- C2 (amended): for every slot state occupied by connection id, a repeated
claim by that same id returns false (rejected like any claim while the slot
is occupied) and the occupant and the whole manager are left unchanged. -/
theorem join_conductor_same_id_rejected (m : SessionManager)
    (session_id socket_id : String) (s : SessionState)
    (hs : Dict.lookup session_id m.sessions = some s)
    (hc : s.conductor_socket_id = some socket_id) :
    (m.join_conductor session_id socket_id).1.2 = false
    ∧ (m.join_conductor session_id socket_id).2 = m
    ∧ Dict.lookup session_id (m.join_conductor session_id socket_id).2.sessions = some s := by
  rw [join_conductor_occupied m session_id socket_id socket_id s hs hc]
  exact ⟨rfl, rfl, hs⟩

/-- C2 witness: the amended theorem applied to the occupied slot above. -/
theorem join_conductor_same_id_rejected_witness :
    ((SessionManager.mk [("s", ⟨"s", [], some "a"⟩)]).join_conductor "s" "a").1.2 = false
    ∧ ((SessionManager.mk [("s", ⟨"s", [], some "a"⟩)]).join_conductor "s" "a").2
        = SessionManager.mk [("s", ⟨"s", [], some "a"⟩)]
    ∧ Dict.lookup "s" ((SessionManager.mk [("s", ⟨"s", [], some "a"⟩)]).join_conductor "s" "a").2.sessions
        = some ⟨"s", [], some "a"⟩ :=
  join_conductor_same_id_rejected _ "s" "a" _ (by simp [Dict.lookup]) rfl

/-- C3: while session sess's conductor slot is occupied by c, a claim by any
b distinct from c returns false, leaves the manager unchanged, and the
occupant of the (single-valued) slot is still exactly c. -/
theorem join_conductor_distinct_rejected (m : SessionManager)
    (session_id b c : String) (s : SessionState)
    (hs : Dict.lookup session_id m.sessions = some s)
    (hc : s.conductor_socket_id = some c) (hbc : b ≠ c) :
    (m.join_conductor session_id b).1.2 = false
    ∧ (m.join_conductor session_id b).2 = m
    ∧ Dict.lookup session_id (m.join_conductor session_id b).2.sessions = some s
    ∧ (∀ d s2, Dict.lookup session_id (m.join_conductor session_id b).2.sessions = some s2 →
        s2.conductor_socket_id = some d → d = c) := by
  rw [join_conductor_occupied m session_id b c s hs hc]
  refine ⟨rfl, rfl, hs, ?_⟩
  intro d s2 h1 h2
  rw [hs] at h1
  injection h1 with h1
  subst h1
  rw [hc] at h2
  injection h2 with h2
  exact h2.symm

/-- C3 witness: a distinct claim "b" against occupant "c". -/
theorem join_conductor_distinct_rejected_witness :
    ((SessionManager.mk [("s", ⟨"s", [], some "c"⟩)]).join_conductor "s" "b").1.2 = false
    ∧ ((SessionManager.mk [("s", ⟨"s", [], some "c"⟩)]).join_conductor "s" "b").2
        = SessionManager.mk [("s", ⟨"s", [], some "c"⟩)] := by
  have h := join_conductor_distinct_rejected (SessionManager.mk [("s", ⟨"s", [], some "c"⟩)])
    "s" "b" "c" ⟨"s", [], some "c"⟩ (by simp [Dict.lookup]) rfl (by decide)
  exact ⟨h.1, h.2.1⟩

/-- C4 counterexample: a concrete serialized session has no instrumentMix
field at all - its keys are exactly sessionId, participants, hasConductor,
participantCount - refuting the claimed instrument histogram. -/
theorem serialize_no_instrument_mix_cex :
    (SessionState.serialize ⟨"s", [("a", ⟨"a", "pad", "ann", none, none, 0⟩)], none⟩).objLookup
        "instrumentMix" = none
    ∧ (SessionState.serialize ⟨"s", [("a", ⟨"a", "pad", "ann", none, none, 0⟩)], none⟩).objKeys
        = ["sessionId", "participants", "hasConductor", "participantCount"] := by
  constructor
  · simp [SessionState.serialize, Js.objLookup, Dict.lookup]
  · rfl

/-- C4 (amended): for every store state, serialize returns the session id,
the ordered list of participant public fields (socketId, instrument,
username, canvas, lastSeen - no raw output vector), the participant count
and whether a conductor is present; no instrument histogram is included. -/
theorem serialize_fields_spec (st : SessionState) :
    (st.serialize).objKeys = ["sessionId", "participants", "hasConductor", "participantCount"]
    ∧ (st.serialize).objLookup "instrumentMix" = none
    ∧ (st.serialize).objLookup "participantCount" = some (Js.num st.participants.length)
    ∧ (st.serialize).objLookup "hasConductor" = some (Js.bool st.conductor_socket_id.isSome)
    ∧ (st.serialize).objLookup "participants"
        = some (Js.arr (st.participants.map (fun kv => serializeParticipant kv.2)))
    ∧ ∀ p : ParticipantState,
        (serializeParticipant p).objKeys = ["socketId", "instrument", "username", "canvas", "lastSeen"] := by
  refine ⟨rfl, ?_, ?_, ?_, ?_, fun p => rfl⟩ <;>
    simp [SessionState.serialize, Js.objLookup, Dict.lookup]

/-- C7: update_participant on an unknown session or unknown socket returns
none and leaves the whole manager unchanged; on a known participant it
applies exactly the fields provided (a provided output vector replaces in
full), leaves every field not provided untouched, keeps username/socket id,
sets last_seen to now, returns the updated session, and touches no other
participant and no other session. -/
theorem update_participant_spec (m : SessionManager) (session_id socket_id : String)
    (canvas : Option String) (output : Option (List ℚ)) (instrument : Option String)
    (now : ℚ) :
    (Dict.lookup session_id m.sessions = none →
      m.update_participant session_id socket_id canvas output instrument now = (none, m))
    ∧ (∀ s, Dict.lookup session_id m.sessions = some s →
        Dict.lookup socket_id s.participants = none →
        m.update_participant session_id socket_id canvas output instrument now = (none, m))
    ∧ (∀ s p, Dict.lookup session_id m.sessions = some s →
        Dict.lookup socket_id s.participants = some p →
        ∃ p2 : ParticipantState,
          (m.update_participant session_id socket_id canvas output instrument now).1
              = some { s with participants := Dict.set socket_id p2 s.participants }
          ∧ (m.update_participant session_id socket_id canvas output instrument now).2
              = ⟨Dict.set session_id { s with participants := Dict.set socket_id p2 s.participants } m.sessions⟩
          ∧ p2.socket_id = p.socket_id ∧ p2.username = p.username ∧ p2.last_seen = now
          ∧ (canvas = none → p2.canvas = p.canvas)
          ∧ (∀ c, canvas = some c → p2.canvas = some c)
          ∧ (output = none → p2.output = p.output)
          ∧ (∀ o, output = some o → p2.output = some o)
          ∧ (instrument = none → p2.instrument = p.instrument)
          ∧ (∀ i, instrument = some i → p2.instrument = i)
          ∧ (∀ sid2, sid2 ≠ socket_id →
              Dict.lookup sid2 (Dict.set socket_id p2 s.participants)
                = Dict.lookup sid2 s.participants)
          ∧ (∀ sess2, sess2 ≠ session_id →
              Dict.lookup sess2
                  (m.update_participant session_id socket_id canvas output instrument now).2.sessions
                = Dict.lookup sess2 m.sessions)) := by
  refine ⟨?_, ?_, ?_⟩
  · intro h
    simp [SessionManager.update_participant, h]
  · intro s hs hp
    simp [SessionManager.update_participant, hs, hp]
  · intro s p hs hp
    refine ⟨{ p with
        canvas := match canvas with | none => p.canvas | some c => some c
        output := match output with | none => p.output | some o => some o
        instrument := match instrument with | none => p.instrument | some i => i
        last_seen := now }, ?_, ?_, rfl, rfl, rfl, ?_, ?_, ?_, ?_, ?_, ?_, ?_, ?_⟩
    · simp [SessionManager.update_participant, hs, hp]
    · simp [SessionManager.update_participant, hs, hp]
    · intro h; simp [h]
    · intro c h; simp [h]
    · intro h; simp [h]
    · intro o h; simp [h]
    · intro h; simp [h]
    · intro i h; simp [h]
    · intro sid2 h
      exact Dict.lookup_set_ne socket_id sid2 _ h _
    · intro sess2 h
      simp only [SessionManager.update_participant, hs, hp]
      exact Dict.lookup_set_ne session_id sess2 _ h _

/-- C7 witness: the unknown-socket case and the known-participant case on
concrete stores. -/
theorem update_participant_spec_witness :
    ((SessionManager.mk [("s", ⟨"s", [], none⟩)]).update_participant "s" "a" none none none 0
        = (none, SessionManager.mk [("s", ⟨"s", [], none⟩)]))
    ∧ ∃ p2 : ParticipantState,
        ((SessionManager.mk [("s", ⟨"s", [("a", ⟨"a", "pad", "ann", none, none, 0⟩)], none⟩)]).update_participant
            "s" "a" none (some [1]) none 7).1
          = some { session_id := "s",
                   participants := Dict.set "a" p2 [("a", ⟨"a", "pad", "ann", none, none, 0⟩)],
                   conductor_socket_id := none }
          ∧ p2.output = some [1] ∧ p2.last_seen = 7 := by
  constructor
  · exact (update_participant_spec _ "s" "a" none none none 0).2.1 ⟨"s", [], none⟩ rfl rfl
  · obtain ⟨p2, h1, _, _, _, h5, _, _, _, ho, _, _, _, _⟩ :=
      (update_participant_spec
        (SessionManager.mk [("s", ⟨"s", [("a", ⟨"a", "pad", "ann", none, none, 0⟩)], none⟩)])
        "s" "a" none (some [1]) none 7).2.2
        ⟨"s", [("a", ⟨"a", "pad", "ann", none, none, 0⟩)], none⟩
        ⟨"a", "pad", "ann", none, none, 0⟩ (by simp [Dict.lookup]) (by simp [Dict.lookup])
    exact ⟨p2, h1, ho [1] rfl, h5⟩

/-- C9 counterexample: joining with the whitespace-only username " " stores
" " itself (Python `username or "anonymous"` replaces only the empty
string), refuting the claimed normalization to "anonymous". -/
theorem join_whitespace_username_cex :
    (Dict.lookup "a" (((SessionManager.mk []).join_participant "s" "a" "pad" " " 0).1.participants)).map
        ParticipantState.username = some " "
    ∧ (" " : String) ≠ "anonymous" := by
  constructor
  · rfl
  · decide

/-- C9 (amended): on join, only the empty username normalizes to
"anonymous"; any nonempty username - including whitespace-only ones - is
stored exactly as given. -/
theorem join_username_normalization (m : SessionManager)
    (session_id socket_id instrument u : String) (now : ℚ) :
    (u = "" →
      (Dict.lookup socket_id
          ((m.join_participant session_id socket_id instrument u now).1.participants)).map
        ParticipantState.username = some "anonymous")
    ∧ (u ≠ "" →
      (Dict.lookup socket_id
          ((m.join_participant session_id socket_id instrument u now).1.participants)).map
        ParticipantState.username = some u) := by
  unfold SessionManager.join_participant
  constructor
  · intro h
    simp [Dict.lookup_set_self, h]
  · intro h
    simp [Dict.lookup_set_self, h]

/-- C9 witness: the amended theorem at the empty and at a space username. -/
theorem join_username_normalization_witness :
    (Dict.lookup "a" (((SessionManager.mk []).join_participant "s" "a" "pad" "" 0).1.participants)).map
        ParticipantState.username = some "anonymous"
    ∧ (Dict.lookup "a" (((SessionManager.mk []).join_participant "s" "a" "pad" " " 0).1.participants)).map
        ParticipantState.username = some " " :=
  ⟨(join_username_normalization _ "s" "a" "pad" "" 0).1 rfl,
   (join_username_normalization _ "s" "a" "pad" " " 0).2 (by decide)⟩

/-- C10: an output vector that is set but empty is treated the same as never
set - update_participant does store the empty list (only None is skipped),
yet get_chord_for_trigger then returns no chord, because the presence check
is list truthiness rather than an is-None test, so a subsequent trigger is
silently dropped. -/
theorem empty_output_chord_none (m : SessionManager) (session_id socket_id : String)
    (s : SessionState) (p : ParticipantState) (now : ℚ)
    (hs : Dict.lookup session_id m.sessions = some s)
    (hp : Dict.lookup socket_id s.participants = some p) :
    ∃ s2, (m.update_participant session_id socket_id none (some []) none now).1 = some s2
      ∧ (Dict.lookup socket_id s2.participants).map ParticipantState.output = some (some [])
      ∧ (m.update_participant session_id socket_id none (some []) none now).2.get_chord_for_trigger
          session_id socket_id = none := by
  obtain ⟨p2, h1, h2, _, _, _, _, _, _, ho, _, _, _, _⟩ :=
    (update_participant_spec m session_id socket_id none (some []) none now).2.2 s p hs hp
  refine ⟨_, h1, ?_, ?_⟩
  · rw [Dict.lookup_set_self]
    simp [ho [] rfl]
  · rw [h2]
    simp [SessionManager.get_chord_for_trigger, SessionState.get_participant_chord,
      Dict.lookup_set_self, ho [] rfl]

/-- C10 witness: a participant whose output is updated to the empty list on
a concrete store. -/
theorem empty_output_chord_none_witness :
    ∃ s2, ((SessionManager.mk [("s", ⟨"s", [("a", ⟨"a", "pad", "ann", none, none, 0⟩)], none⟩)]).update_participant
          "s" "a" none (some []) none 3).1 = some s2
      ∧ (Dict.lookup "a" s2.participants).map ParticipantState.output = some (some [])
      ∧ ((SessionManager.mk [("s", ⟨"s", [("a", ⟨"a", "pad", "ann", none, none, 0⟩)], none⟩)]).update_participant
          "s" "a" none (some []) none 3).2.get_chord_for_trigger "s" "a" = none :=
  empty_output_chord_none _ "s" "a" ⟨"s", [("a", ⟨"a", "pad", "ann", none, none, 0⟩)], none⟩
    ⟨"a", "pad", "ann", none, none, 0⟩ 3 (by simp [Dict.lookup]) (by simp [Dict.lookup])

/-! Claims about the rate limiter (socket_server.py _rate_ok). -/

/-- C5: for every limiter store, connection id and clock value, _rate_ok
admits and records now exactly when the cooldown (80 ms) has elapsed since
the last admitted timestamp (0 for a fresh id); on rejection the store is
unchanged; and after an admission at `now`, a second call is admitted
exactly when it is at or beyond the cooldown after `now`. -/
theorem rate_ok_spec (store : List (String × ℚ)) (sid : String) (now : ℚ) :
    ((rate_ok store sid now).1 = true ↔
        RATE_LIMIT_SEC ≤ now - (Dict.lookup sid store).getD 0)
    ∧ ((rate_ok store sid now).1 = true →
        (rate_ok store sid now).2 = Dict.set sid now store)
    ∧ ((rate_ok store sid now).1 = false → (rate_ok store sid now).2 = store)
    ∧ (∀ t2, (rate_ok store sid now).1 = true →
        ((rate_ok (rate_ok store sid now).2 sid t2).1 = true ↔
          RATE_LIMIT_SEC ≤ t2 - now)) := by
  by_cases h : now - (Dict.lookup sid store).getD 0 < RATE_LIMIT_SEC
  · refine ⟨?_, ?_, ?_, ?_⟩ <;> simp [rate_ok, h]
  · refine ⟨?_, ?_, ?_, ?_⟩
    · have h2 : RATE_LIMIT_SEC ≤ now - (Dict.lookup sid store).getD 0 := not_lt.mp h
      simp [rate_ok, h, h2]
    · simp [rate_ok, h]
    · simp [rate_ok, h]
    · intro t2 _
      have h2 : (rate_ok store sid now).2 = Dict.set sid now store := by
        simp [rate_ok, h]
      rw [h2]
      by_cases h3 : t2 - now < RATE_LIMIT_SEC
      · simp [rate_ok, Dict.lookup_set_self, h3]
      · have h4 : RATE_LIMIT_SEC ≤ t2 - now := not_lt.mp h3
        simp [rate_ok, Dict.lookup_set_self, h3, h4]

/-- C5 witness: a fresh id admitted at time 1, rejected 50 ms later and
admitted 80 ms later. -/
theorem rate_ok_spec_witness :
    (rate_ok [] "a" 1).1 = true
    ∧ (rate_ok [] "a" 1).2 = Dict.set "a" 1 []
    ∧ ((rate_ok (rate_ok [] "a" 1).2 "a" (1 + 50/1000)).1 = true ↔
        RATE_LIMIT_SEC ≤ (1 + 50/1000) - 1)
    ∧ ((rate_ok (rate_ok [] "a" 1).2 "a" (1 + 80/1000)).1 = true ↔
        RATE_LIMIT_SEC ≤ (1 + 80/1000) - 1) := by
  have h := rate_ok_spec [] "a" 1
  have h1 : (rate_ok [] "a" 1).1 = true := by
    rw [h.1]
    norm_num [Dict.lookup, RATE_LIMIT_SEC, RATE_LIMIT_MS]
  exact ⟨h1, h.2.1 h1, h.2.2.2 (1 + 50/1000) h1, h.2.2.2 (1 + 80/1000) h1⟩

/-! Claims about the inactivity reaper. -/

/-- The removed count of remove_inactive is the number of participants whose
last_seen lies strictly before the cutoff. -/
theorem remove_inactive_count (st : ShowState) (timeout now : ℚ) :
    (st.remove_inactive timeout now).1
      = st.participants.countP (fun kv => decide (kv.2.last_seen < now - timeout)) := by
  have hf : (fun kv : String × Part => !decide (now - timeout ≤ kv.2.last_seen))
      = (fun kv : String × Part => decide (kv.2.last_seen < now - timeout)) := by
    funext kv
    rcases le_or_lt (now - timeout) kv.2.last_seen with hx | hx
    · simp [hx, not_lt.mpr hx]
    · simp [hx, not_le.mpr hx]
  have h := List.length_eq_length_filter_add (l := st.participants)
      (fun kv => decide (now - timeout ≤ kv.2.last_seen))
  rw [hf] at h
  simp only [ShowState.remove_inactive]
  rw [List.countP_eq_length_filter]
  omega

/-- Retention after remove_inactive: exactly the entries with last_seen at
or after the cutoff survive. -/
theorem remove_inactive_mem (st : ShowState) (timeout now : ℚ) (e : String × Part) :
    e ∈ (st.remove_inactive timeout now).2.participants ↔
      (e ∈ st.participants ∧ now - timeout ≤ e.2.last_seen) := by
  simp [ShowState.remove_inactive, List.mem_filter]

/-- C6: on each reaper tick, a participant entry survives exactly when its
last_seen is within the 120-second inactivity timeout of now; the tick
broadcasts exactly one crowd:snapshot when the removed count is nonzero and
nothing otherwise; and the count is nonzero exactly when some participant
was older than the cutoff. -/
theorem cleanup_tick_spec (st : ServerState) (now : ℚ) :
    (∀ e, e ∈ (cleanup_tick st now).1.show_state.participants ↔
        (e ∈ st.show_state.participants ∧ now - 120 ≤ e.2.last_seen))
    ∧ ((cleanup_tick st now).2 = [⟨"crowd:snapshot", Dest.room "crowd"⟩] ↔
        (st.show_state.remove_inactive INACTIVITY_TIMEOUT_SEC now).1 ≠ 0)
    ∧ ((cleanup_tick st now).2 = [] ↔
        (st.show_state.remove_inactive INACTIVITY_TIMEOUT_SEC now).1 = 0)
    ∧ ((st.show_state.remove_inactive INACTIVITY_TIMEOUT_SEC now).1 ≠ 0 ↔
        ∃ e ∈ st.show_state.participants, e.2.last_seen < now - 120) := by
  refine ⟨?_, ?_, ?_, ?_⟩
  · intro e
    have h := remove_inactive_mem st.show_state INACTIVITY_TIMEOUT_SEC now e
    have hstate : (cleanup_tick st now).1
        = { st with show_state := (st.show_state.remove_inactive INACTIVITY_TIMEOUT_SEC now).2 } := by
      simp only [cleanup_tick]
      split <;> rfl
    rw [hstate]
    simpa [INACTIVITY_TIMEOUT_SEC] using h
  · by_cases h0 : (st.show_state.remove_inactive INACTIVITY_TIMEOUT_SEC now).1 = 0 <;>
      simp [cleanup_tick, h0]
  · by_cases h0 : (st.show_state.remove_inactive INACTIVITY_TIMEOUT_SEC now).1 = 0 <;>
      simp [cleanup_tick, h0]
  · rw [remove_inactive_count, ← Nat.pos_iff_ne_zero]
    simp [INACTIVITY_TIMEOUT_SEC]

/-! Claims about the chord:trigger handler. -/

theorem Js.isNull_iff (v : Js) : v.isNull = true ↔ v = Js.null := by
  cases v <;> simp [Js.isNull]

/-- The inbound payload carries no output field: the payload value is falsy
(so the handler substitutes an empty dict) or it is a dict whose output key
is absent or null. A truthy non-dict payload is excluded (it raises). -/
def noOutputPayload : Js → Bool
  | .obj kvs => ((Dict.lookup "output" kvs).getD .null).isNull
  | d => !d.truthy

/-- Under a no-output payload, the effective payload is a dict and its
output field reads as null. -/
theorem noOutput_get (data : Js) (hd : noOutputPayload data = true) :
    (Js.orElse data (Js.obj [])).get "output" = .ok Js.null
    ∧ ∃ kvs, Js.orElse data (Js.obj []) = Js.obj kvs := by
  cases data with
  | obj kvs =>
    cases kvs with
    | nil => exact ⟨rfl, [], rfl⟩
    | cons hd2 tl =>
      have ht : Js.truthy (Js.obj (hd2 :: tl)) = true := by simp [Js.truthy]
      have hdn : (Dict.lookup "output" (hd2 :: tl)).getD Js.null = Js.null := by
        simp only [noOutputPayload] at hd
        exact (Js.isNull_iff _).mp hd
      constructor
      · simp only [Js.orElse, ht, if_true, Js.get, hdn]
      · exact ⟨hd2 :: tl, by simp [Js.orElse, ht]⟩
  | null => exact ⟨rfl, [], rfl⟩
  | bool b =>
    have hb : b = false := by simpa [noOutputPayload, Js.truthy] using hd
    subst hb
    exact ⟨rfl, [], rfl⟩
  | num q =>
    have hq : q = 0 := by simpa [noOutputPayload, Js.truthy] using hd
    subst hq
    exact ⟨by simp [Js.orElse, Js.truthy, Js.get, Dict.lookup],
      [], by simp [Js.orElse, Js.truthy]⟩
  | str s =>
    have hs : s = "" := by simpa [noOutputPayload, Js.truthy] using hd
    subst hs
    exact ⟨rfl, [], rfl⟩
  | arr xs =>
    have hx : xs = [] := by simpa [noOutputPayload, Js.truthy] using hd
    subst hx
    exact ⟨rfl, [], rfl⟩

/-- A null-output update can never make a null output truthy, so the chord
lookup still fails afterwards. -/
theorem chord_none_after_null_update (s : ShowState) (sid : String) (instr : Js) (now : ℚ)
    (hp : ∀ p, Dict.lookup sid s.participants = some p → p.output = Js.null) :
    (s.update_participant sid Js.null Js.null instr now).2.get_chord_for_trigger sid = none := by
  cases h : Dict.lookup sid s.participants with
  | none => simp [ShowState.update_participant, ShowState.get_chord_for_trigger, h]
  | some p =>
    simp [ShowState.update_participant, ShowState.get_chord_for_trigger, h,
      Dict.lookup_set_self, Js.isNull, hp p h, Js.truthy]

/-- An untouched show with a null (or absent) output also yields no chord. -/
theorem chord_none_plain (s : ShowState) (sid : String)
    (hp : ∀ p, Dict.lookup sid s.participants = some p → p.output = Js.null) :
    s.get_chord_for_trigger sid = none := by
  cases h : Dict.lookup sid s.participants with
  | none => simp [ShowState.get_chord_for_trigger, h]
  | some p => simp [ShowState.get_chord_for_trigger, h, hp p h, Js.truthy]

/-- Reduction of bind on a successful Except value. -/
theorem bind_ok_eq {ε α β : Type} (a : α) (f : α → Except ε β) :
    ((Except.ok a : Except ε α) >>= f) = f a := rfl

/-- C8: a chord:trigger from a connection whose participant record has never
had its output set (still null, or no record at all), with a payload that
carries no output, is a no-op: the handler succeeds with an empty emit list
(in particular no chord:played broadcast) and an empty sound-control send
list - a silent drop with no error reply. -/
theorem chord_trigger_unset_output_noop (st : ServerState) (sid : String) (data : Js)
    (now : ℚ)
    (hp : ∀ p, Dict.lookup sid st.show_state.participants = some p → p.output = Js.null)
    (hd : noOutputPayload data = true) :
    ∃ st2, handle_chord_trigger st sid data now = Except.ok ⟨st2, [], []⟩ := by
  obtain ⟨hout, kvs, hkvs⟩ := noOutput_get data hd
  by_cases hg : (rate_ok st.last_trigger sid now).1 = true
  · have hinstr : (Js.orElse data (Js.obj [])).get "instrument"
        = Except.ok ((Dict.lookup "instrument" kvs).getD Js.null) := by
      rw [hkvs]
      rfl
    have hnull : Js.null.isNull = true := rfl
    by_cases hi : ((Dict.lookup "instrument" kvs).getD Js.null).isNull = true
    · refine ⟨⟨st.show_state, st.last_canvas, (rate_ok st.last_trigger sid now).2⟩, ?_⟩
      have hchord := chord_none_plain st.show_state sid hp
      simp [handle_chord_trigger, hg, hout, hinstr, hnull, hi, hchord, bind_ok_eq]
    · refine ⟨⟨(st.show_state.update_participant sid Js.null Js.null
          ((Dict.lookup "instrument" kvs).getD Js.null) now).2,
          st.last_canvas, (rate_ok st.last_trigger sid now).2⟩, ?_⟩
      have hchord := chord_none_after_null_update st.show_state sid
        ((Dict.lookup "instrument" kvs).getD Js.null) now hp
      simp [handle_chord_trigger, hg, hout, hinstr, hnull, hi, hchord, bind_ok_eq]
  · refine ⟨⟨st.show_state, st.last_canvas, (rate_ok st.last_trigger sid now).2⟩, ?_⟩
    simp [handle_chord_trigger, hg]

/-- C8 witness: a joined participant (output still null) triggering with an
empty payload on a concrete server state. -/
theorem chord_trigger_unset_output_noop_witness :
    ∃ st2, handle_chord_trigger
        ⟨⟨[("a", ⟨"a", Js.str "pad", Js.str "ann", Js.null, Js.null, 0⟩)], none⟩, [], []⟩
        "a" Js.null 1 = Except.ok ⟨st2, [], []⟩ := by
  refine chord_trigger_unset_output_noop _ "a" Js.null 1 ?_ rfl
  intro p h
  simp [Dict.lookup] at h
  rw [← h]

/-! Infrastructure for the dispatcher totality claim: well-formedness of
stored participants and of inbound payloads, and success lemmas for the
outbound sender helpers. -/

/-- Reduction of bind on a failed Except value. -/
theorem bind_error_eq {ε α β : Type} (e : ε) (f : α → Except ε β) :
    ((Except.error e : Except ε α) >>= f) = Except.error e := rfl

theorem Dict.all_set {α : Type} (P : String × α → Bool) (k : String) (v : α) :
    ∀ l : List (String × α), l.all P = true → P (k, v) = true →
      (Dict.set k v l).all P = true := by
  intro l
  induction l with
  | nil => intro _ hv; simp [Dict.set, hv]
  | cons hd tl ih =>
    intro hall hv
    simp only [List.all_cons, Bool.and_eq_true] at hall
    by_cases h : hd.1 = k
    · simp [Dict.set, h, hv, hall.2]
    · simp [Dict.set, h, hall.1, ih hall.2 hv]

theorem Dict.all_erase {α : Type} (P : String × α → Bool) (k : String) :
    ∀ l : List (String × α), l.all P = true → (Dict.erase k l).all P = true := by
  intro l
  induction l with
  | nil => intro _; simp [Dict.erase]
  | cons hd tl ih =>
    intro hall
    simp only [List.all_cons, Bool.and_eq_true] at hall
    by_cases h : hd.1 = k
    · simp [Dict.erase, h, hall.2]
    · simp [Dict.erase, h, hall.1, ih hall.2]

theorem Dict.all_lookup {α : Type} (P : String × α → Bool) (k : String) (v : α) :
    ∀ l : List (String × α), l.all P = true → Dict.lookup k l = some v →
      P (k, v) = true := by
  intro l
  induction l with
  | nil => intro _ h; simp [Dict.lookup] at h
  | cons hd tl ih =>
    intro hall hlk
    simp only [List.all_cons, Bool.and_eq_true] at hall
    by_cases h : hd.1 = k
    · simp only [Dict.lookup, h, if_pos] at hlk
      injection hlk with hlk
      have : hd = (k, v) := by
        cases hd
        simp_all
      rw [← this]
      exact hall.1
    · simp only [Dict.lookup, h, if_neg, if_false] at hlk
      exact ih hall.2 hlk

/-- Float coercion succeeds on every list of numeric JSON values. -/
theorem mapFloats_ok :
    ∀ xs : List Js, xs.all Js.isNum = true →
      ∃ fs : List ℚ, mapFloats xs = Except.ok fs := by
  intro xs
  induction xs with
  | nil => intro _; exact ⟨[], rfl⟩
  | cons x rest ih =>
    intro hall
    simp only [List.all_cons, Bool.and_eq_true] at hall
    obtain ⟨fs, hfs⟩ := ih hall.2
    cases x with
    | num q =>
      exact ⟨q :: fs, by simp [mapFloats, Js.toFloat, hfs, bind_ok_eq]⟩
    | null => simp [Js.isNum] at hall
    | bool b => simp [Js.isNum] at hall
    | str s => simp [Js.isNum] at hall
    | arr a => simp [Js.isNum] at hall
    | obj o => simp [Js.isNum] at hall

/-- The running max fold succeeds on numeric inputs. -/
theorem maxFold_ok :
    ∀ (xs : List Js) (acc : ℚ), xs.all Js.isNum = true →
      ∃ q, Js.maxFold acc xs = Except.ok q := by
  intro xs
  induction xs with
  | nil => intro acc _; exact ⟨acc, rfl⟩
  | cons x rest ih =>
    intro acc hall
    simp only [List.all_cons, Bool.and_eq_true] at hall
    cases x with
    | num q =>
      obtain ⟨r, hr⟩ := ih (max acc q) hall.2
      exact ⟨r, by simp [Js.maxFold, Js.toCmpNum, bind_ok_eq, hr]⟩
    | null => simp [Js.isNum] at hall
    | bool b => simp [Js.isNum] at hall
    | str s => simp [Js.isNum] at hall
    | arr a => simp [Js.isNum] at hall
    | obj o => simp [Js.isNum] at hall

/-- Python max succeeds on a nonempty list of numeric values. -/
theorem maxNum_ok (xs : List Js) (hall : xs.all Js.isNum = true) (hne : xs ≠ []) :
    ∃ q, Js.maxNum xs = Except.ok q := by
  cases xs with
  | nil => exact absurd rfl hne
  | cons x rest =>
    simp only [List.all_cons, Bool.and_eq_true] at hall
    cases x with
    | num q =>
      obtain ⟨r, hr⟩ := maxFold_ok rest q hall.2
      exact ⟨r, by simp [Js.maxNum, Js.toCmpNum, bind_ok_eq, hr]⟩
    | null => simp [Js.isNum] at hall
    | bool b => simp [Js.isNum] at hall
    | str s => simp [Js.isNum] at hall
    | arr a => simp [Js.isNum] at hall
    | obj o => simp [Js.isNum] at hall

/-- A numeric vector can always be normalized and sent. -/
theorem sendVector_ok (address : String) (v : Js) (h : v.isNumArr = true) :
    ∃ m, sendVector address v = Except.ok m := by
  cases v with
  | arr xs =>
    simp only [Js.isNumArr] at h
    obtain ⟨fs, hfs⟩ := mapFloats_ok xs h
    exact ⟨⟨address, fs.map Js.num⟩, by simp [sendVector, Js.iterate, bind_ok_eq, hfs]⟩
  | null => simp [Js.isNumArr] at h
  | bool b => simp [Js.isNumArr] at h
  | num q => simp [Js.isNumArr] at h
  | str s => simp [Js.isNumArr] at h
  | obj o => simp [Js.isNumArr] at h

/-- A truthy numeric array is a nonempty list of numeric values. -/
theorem truthy_numArr (v : Js) (h : v.isNumArr = true) (ht : v.truthy = true) :
    ∃ x xs, v = Js.arr (x :: xs) := by
  cases v with
  | arr l =>
    cases l with
    | nil => simp [Js.truthy] at ht
    | cons x xs => exact ⟨x, xs, rfl⟩
  | null => simp [Js.isNumArr] at h
  | bool b => simp [Js.isNumArr] at h
  | num q => simp [Js.isNumArr] at h
  | str s => simp [Js.isNumArr] at h
  | obj o => simp [Js.isNumArr] at h

/-- The solo sender succeeds on numeric vectors with a nonempty output. -/
theorem send_solo_ok (h1 h2 out : Js) (g1 : h1.isNumArr = true)
    (g2 : h2.isNumArr = true) (g3 : out.isNumArr = true) (gt : out.truthy = true) :
    ∃ msgs, send_solo_activations h1 h2 out = Except.ok msgs := by
  obtain ⟨m1, hm1⟩ := sendVector_ok "/solo/hidden1" h1 g1
  obtain ⟨m2, hm2⟩ := sendVector_ok "/solo/hidden2" h2 g2
  obtain ⟨m3, hm3⟩ := sendVector_ok "/solo/output" out g3
  obtain ⟨x, xs, hxs⟩ := truthy_numArr out g3 gt
  subst hxs
  simp only [Js.isNumArr] at g3
  obtain ⟨q, hq⟩ := maxNum_ok (x :: xs) g3 (by simp)
  exact ⟨[m1, m2, m3], by
    simp [send_solo_activations, hm1, hm2, hm3, Js.iterate, hq, bind_ok_eq]⟩

/-- The crowd sender succeeds on a string instrument and a truthy numeric
output vector, whatever the username value. -/
theorem send_crowd_ok (instr username out : Js) (hi : instr.isStr = true)
    (ho : out.isNumArr = true) (ht : out.truthy = true) :
    ∃ m, send_crowd_chord instr username out = Except.ok m := by
  obtain ⟨x, xs, hxs⟩ := truthy_numArr out ho ht
  subst hxs
  simp only [Js.isNumArr] at ho
  obtain ⟨fs, hfs⟩ := mapFloats_ok (x :: xs) ho
  obtain ⟨q, hq⟩ := maxNum_ok (x :: xs) ho (by simp)
  cases instr with
  | str s =>
    refine ⟨⟨"/crowd/" ++ (if s.toLower.trim = "" then "pad" else s.toLower.trim) ++ "/chord",
      (username.orElse (.str "anon")) :: fs.map Js.num⟩, ?_⟩
    by_cases hs : s.toLower.trim = "" <;>
      simp [send_crowd_chord, Js.lowerStr, Js.iterate, hfs, hq, bind_ok_eq, hs]
  | null => simp [Js.isStr] at hi
  | bool b => simp [Js.isStr] at hi
  | num q2 => simp [Js.isStr] at hi
  | arr a => simp [Js.isStr] at hi
  | obj o => simp [Js.isStr] at hi

/-- A well-formed stored participant: the instrument tag is a string and the
output vector, once set, is a list of numbers (exactly what the browser
client sends; it is what the chord path needs to not raise). -/
def GoodPart (p : Part) : Bool :=
  p.instrument.isStr && (p.output.isNull || p.output.isNumArr)

/-- A well-formed show: every stored participant is well-formed. -/
def GoodShow (s : ShowState) : Bool :=
  s.participants.all (fun kv => GoodPart kv.2)

/-- Payload well-formedness, parameterized by a condition on the fields of a
dict payload: a falsy payload is replaced by an empty dict in the handlers,
a truthy non-dict payload raises. -/
def goodPayloadBy (F : List (String × Js) → Bool) : Js → Bool
  | .obj kvs => F kvs
  | d => !d.truthy

/-- Field conditions for a crowd:join payload: a truthy role must be a
string (it is lowercased) and a truthy instrument must be a string (it is
stored and later lowercased by the crowd sender). -/
def goodJoinFields (kvs : List (String × Js)) : Bool :=
  (!((Dict.lookup "role" kvs).getD .null).truthy
      || ((Dict.lookup "role" kvs).getD .null).isStr)
    && (!((Dict.lookup "instrument" kvs).getD .null).truthy
      || ((Dict.lookup "instrument" kvs).getD .null).isStr)

/-- Field conditions for canvas:update and chord:trigger payloads: output
absent or a numeric vector, instrument absent or a string. -/
def goodUpdateFields (kvs : List (String × Js)) : Bool :=
  (((Dict.lookup "output" kvs).getD .null).isNull
      || ((Dict.lookup "output" kvs).getD .null).isNumArr)
    && (((Dict.lookup "instrument" kvs).getD .null).isNull
      || ((Dict.lookup "instrument" kvs).getD .null).isStr)

/-- Field conditions for a solo:activation payload: either some layer is
missing (the handler drops the event) or all three are numeric vectors with
a nonempty output (max() over an empty output raises). -/
def goodSoloFields (kvs : List (String × Js)) : Bool :=
  ((Dict.lookup "hidden1" kvs).getD .null).isNull
    || ((Dict.lookup "hidden2" kvs).getD .null).isNull
    || ((Dict.lookup "output" kvs).getD .null).isNull
    || (((Dict.lookup "hidden1" kvs).getD .null).isNumArr
      && ((Dict.lookup "hidden2" kvs).getD .null).isNumArr
      && ((Dict.lookup "output" kvs).getD .null).isNumArr
      && ((Dict.lookup "output" kvs).getD .null).truthy)

/-- Payload well-formedness per event kind; events that never read their
payload accept anything. -/
def goodData : Event → Js → Bool
  | .soloActivation, d => goodPayloadBy goodSoloFields d
  | .crowdJoin, d => goodPayloadBy goodJoinFields d
  | .canvasUpdate, d => goodPayloadBy goodUpdateFields d
  | .chordTrigger, d => goodPayloadBy goodUpdateFields d
  | _, _ => true

/-- A handler outcome is good when it is a success whose resulting show is
still well-formed. -/
def GoodRes : Except PyErr HandlerOut → Bool
  | .ok out => GoodShow out.st.show_state
  | .error _ => false

/-- A well-formed payload resolves, after the `data or` default, to a dict
whose fields satisfy the event's conditions. -/
theorem goodPayload_resolve (F : List (String × Js) → Bool) (hnil : F [] = true)
    (data : Js) (h : goodPayloadBy F data = true) :
    ∃ kvs, Js.orElse data (Js.obj []) = Js.obj kvs ∧ F kvs = true := by
  cases data with
  | obj kvs =>
    cases kvs with
    | nil => exact ⟨[], rfl, hnil⟩
    | cons hd2 tl =>
      exact ⟨hd2 :: tl, by simp [Js.orElse, Js.truthy], h⟩
  | null => exact ⟨[], rfl, hnil⟩
  | bool b =>
    have hb : b = false := by simpa [goodPayloadBy, Js.truthy] using h
    subst hb
    exact ⟨[], rfl, hnil⟩
  | num q =>
    have hq : q = 0 := by simpa [goodPayloadBy, Js.truthy] using h
    subst hq
    exact ⟨[], by simp [Js.orElse, Js.truthy], hnil⟩
  | str s =>
    have hs : s = "" := by simpa [goodPayloadBy, Js.truthy] using h
    subst hs
    exact ⟨[], rfl, hnil⟩
  | arr xs =>
    have hx : xs = [] := by simpa [goodPayloadBy, Js.truthy] using h
    subst hx
    exact ⟨[], rfl, hnil⟩

/-- Lowercasing after an `or` fallback to a string literal succeeds whenever
a truthy value is a string. -/
theorem lowerStr_orElse_ok (v : Js) (fallback : String)
    (h : (!v.truthy || v.isStr) = true) :
    ∃ s, (v.orElse (Js.str fallback)).lowerStr = Except.ok s := by
  by_cases ht : v.truthy = true
  · have hstr : v.isStr = true := by
      rcases Bool.or_eq_true_iff.mp h with h2 | h2
      · rw [ht] at h2
        simp at h2
      · exact h2
    cases v with
    | str s => exact ⟨s.toLower, by simp [Js.orElse, ht, Js.lowerStr]⟩
    | null => simp [Js.isStr] at hstr
    | bool b => simp [Js.isStr] at hstr
    | num q => simp [Js.isStr] at hstr
    | arr a => simp [Js.isStr] at hstr
    | obj o => simp [Js.isStr] at hstr
  · exact ⟨fallback.toLower, by simp [Js.orElse, ht, Js.lowerStr]⟩

/-- The `or "pad"` fallback yields a string whenever a truthy value is a
string. -/
theorem orElse_str_isStr (v : Js) (fallback : String)
    (h : (!v.truthy || v.isStr) = true) :
    (v.orElse (Js.str fallback)).isStr = true := by
  by_cases ht : v.truthy = true
  · have hstr : v.isStr = true := by
      rcases Bool.or_eq_true_iff.mp h with h2 | h2
      · rw [ht] at h2
        simp at h2
      · exact h2
    simp [Js.orElse, ht, hstr]
  · simp [Js.orElse, ht, Js.isStr]

/-- join_conductor never touches the participant map. -/
theorem join_conductor_participants (s : ShowState) (sid : String) :
    (s.join_conductor sid).2.participants = s.participants := by
  unfold ShowState.join_conductor
  cases h : s.conductor_socket_id with
  | none => rfl
  | some c =>
    by_cases hc : c = sid <;> simp [hc]

/-- Joining a participant with a string instrument keeps the show
well-formed (the fresh record's output is null). -/
theorem good_join_participant (s : ShowState) (sid : String)
    (instrument username : Js) (now : ℚ) (hs : GoodShow s = true)
    (hi : instrument.isStr = true) :
    GoodShow (s.join_participant sid instrument username now) = true := by
  unfold GoodShow ShowState.join_participant
  exact Dict.all_set _ _ _ _ hs (by simp [GoodPart, hi, Js.isNull])

/-- Updating a participant with a null-or-numeric output and a null-or-string
instrument keeps the show well-formed. -/
theorem good_update_participant (s : ShowState) (sid : String)
    (canvas output instrument : Js) (now : ℚ) (hs : GoodShow s = true)
    (ho : (output.isNull || output.isNumArr) = true)
    (hi : (instrument.isNull || instrument.isStr) = true) :
    GoodShow (s.update_participant sid canvas output instrument now).2 = true := by
  unfold ShowState.update_participant
  cases h : Dict.lookup sid s.participants with
  | none => exact hs
  | some p =>
    have hp : GoodPart p = true := Dict.all_lookup _ sid p s.participants hs h
    simp only [GoodPart, Bool.and_eq_true, Bool.or_eq_true_iff] at hp
    refine Dict.all_set _ _ _ _ hs ?_
    simp only [GoodPart, Bool.and_eq_true, Bool.or_eq_true_iff]
    constructor
    · by_cases hin : instrument.isNull = true
      · simp [hin, hp.1]
      · rcases Bool.or_eq_true_iff.mp hi with h2 | h2
        · exact absurd h2 hin
        · simp [hin, h2]
    · by_cases hon : output.isNull = true
      · simpa [hon] using hp.2
      · rcases Bool.or_eq_true_iff.mp ho with h2 | h2
        · exact absurd h2 hon
        · simp [hon, h2]

/-- Leaving only removes entries, so the show stays well-formed. -/
theorem good_leave (s : ShowState) (sid : String) (hs : GoodShow s = true) :
    GoodShow (s.leave sid).2 = true := by
  unfold GoodShow ShowState.leave
  exact Dict.all_erase _ _ _ hs

/-- In a well-formed show, a successful chord lookup yields a truthy numeric
output vector and a string instrument. -/
theorem chord_good (s : ShowState) (sid : String) (o i : Js)
    (hs : GoodShow s = true)
    (hc : s.get_chord_for_trigger sid = some (o, i)) :
    o.isNumArr = true ∧ o.truthy = true ∧ i.isStr = true := by
  cases h : Dict.lookup sid s.participants with
  | none => simp [ShowState.get_chord_for_trigger, h] at hc
  | some p =>
    simp only [ShowState.get_chord_for_trigger, h] at hc
    have hp : GoodPart p = true := Dict.all_lookup _ sid p s.participants hs h
    by_cases ht : p.output.truthy = true
    · rw [if_pos ht] at hc
      injection hc with hc
      have h1 : p.output = o := congrArg Prod.fst hc
      have h2 : p.instrument = i := congrArg Prod.snd hc
      rw [← h1, ← h2]
      simp only [GoodPart, Bool.and_eq_true, Bool.or_eq_true_iff] at hp
      refine ⟨?_, ht, hp.1⟩
      rcases hp.2 with h3 | h3
      · rw [(Js.isNull_iff _).mp h3] at ht
        simp [Js.truthy] at ht
      · exact h3
    · rw [if_neg ht] at hc
      cases hc

/-- The crowd:join handler succeeds on a well-formed payload and preserves
show well-formedness. -/
theorem goodRes_crowd_join (st : ServerState) (sid : String) (data : Js) (now : ℚ)
    (hshow : GoodShow st.show_state = true)
    (hdata : goodPayloadBy goodJoinFields data = true) :
    GoodRes (handle_crowd_join st sid data now) = true := by
  obtain ⟨kvs, hkvs, hF⟩ := goodPayload_resolve goodJoinFields rfl data hdata
  simp only [goodJoinFields, Bool.and_eq_true] at hF
  obtain ⟨rs, hrs⟩ :=
    lowerStr_orElse_ok ((Dict.lookup "role" kvs).getD .null) "participant" hF.1
  have hjc : GoodShow (st.show_state.join_conductor sid).2 = true := by
    unfold GoodShow
    rw [join_conductor_participants]
    exact hshow
  have hjp : GoodShow (st.show_state.join_participant sid
      (((Dict.lookup "instrument" kvs).getD Js.null).orElse (Js.str "pad"))
      ((((Dict.lookup "username" kvs).getD Js.null).orElse
        ((Dict.lookup "label" kvs).getD Js.null)).orElse (Js.str "anonymous")) now) = true :=
    good_join_participant _ _ _ _ _ hshow (orElse_str_isStr _ "pad" hF.2)
  by_cases hc : rs = "conductor"
  · by_cases hb : (st.show_state.join_conductor sid).1 = true <;>
      simp [handle_crowd_join, hkvs, Js.get, bind_ok_eq, hrs, hc, hb, GoodRes, hjc]
  · simp [handle_crowd_join, hkvs, Js.get, bind_ok_eq, hrs, hc, GoodRes, hjp]

/-- The solo:activation handler succeeds on a well-formed payload; it never
touches the show. -/
theorem goodRes_solo_activation (st : ServerState) (sid : String) (data : Js)
    (hshow : GoodShow st.show_state = true)
    (hdata : goodPayloadBy goodSoloFields data = true) :
    GoodRes (handle_solo_activation st sid data) = true := by
  obtain ⟨kvs, hkvs, hF⟩ := goodPayload_resolve goodSoloFields rfl data hdata
  by_cases hn : (((Dict.lookup "hidden1" kvs).getD Js.null).isNull
      || (((Dict.lookup "hidden2" kvs).getD Js.null).isNull
        || ((Dict.lookup "output" kvs).getD Js.null).isNull)) = true
  · have hor : ((((Dict.lookup "hidden1" kvs).getD Js.null).isNull = true ∨
        ((Dict.lookup "hidden2" kvs).getD Js.null).isNull = true) ∨
        ((Dict.lookup "output" kvs).getD Js.null).isNull = true) := by
      simpa [Bool.or_eq_true_iff, or_assoc] using hn
    simp [handle_solo_activation, hkvs, Js.get, bind_ok_eq, hor, GoodRes, hshow]
  · have hn2 := hn
    simp only [Bool.or_eq_true_iff, not_or, Bool.not_eq_true] at hn2
    simp only [goodSoloFields, hn2.1, hn2.2.1, hn2.2.2, Bool.false_or,
      Bool.and_eq_true] at hF
    obtain ⟨msgs, hmsgs⟩ := send_solo_ok _ _ _ hF.1.1.1 hF.1.1.2 hF.1.2 hF.2
    simp [handle_solo_activation, hkvs, Js.get, bind_ok_eq, hn2.1, hn2.2.1, hn2.2.2,
      hmsgs, GoodRes, hshow]

/-- The canvas:update handler succeeds on a well-formed payload and
preserves show well-formedness. -/
theorem goodRes_canvas_update (st : ServerState) (sid : String) (data : Js) (now : ℚ)
    (hshow : GoodShow st.show_state = true)
    (hdata : goodPayloadBy goodUpdateFields data = true) :
    GoodRes (handle_canvas_update st sid data now) = true := by
  by_cases hg : (rate_ok st.last_canvas sid now).1 = true
  · obtain ⟨kvs, hkvs, hF⟩ := goodPayload_resolve goodUpdateFields rfl data hdata
    simp only [goodUpdateFields, Bool.and_eq_true] at hF
    have hgood := good_update_participant st.show_state sid
      ((Dict.lookup "canvas" kvs).getD .null) ((Dict.lookup "output" kvs).getD .null)
      ((Dict.lookup "instrument" kvs).getD .null) now hshow hF.1 hF.2
    by_cases hu : (st.show_state.update_participant sid
        ((Dict.lookup "canvas" kvs).getD .null) ((Dict.lookup "output" kvs).getD .null)
        ((Dict.lookup "instrument" kvs).getD .null) now).1 = true <;>
      simp [handle_canvas_update, hg, hkvs, Js.get, bind_ok_eq, hu, GoodRes, hgood]
  · simp [handle_canvas_update, hg, GoodRes, hshow]

/-- The chord:trigger handler succeeds on a well-formed payload against a
well-formed show and preserves show well-formedness. -/
theorem goodRes_chord_trigger (st : ServerState) (sid : String) (data : Js) (now : ℚ)
    (hshow : GoodShow st.show_state = true)
    (hdata : goodPayloadBy goodUpdateFields data = true) :
    GoodRes (handle_chord_trigger st sid data now) = true := by
  by_cases hg : (rate_ok st.last_trigger sid now).1 = true
  · obtain ⟨kvs, hkvs, hF⟩ := goodPayload_resolve goodUpdateFields rfl data hdata
    simp only [goodUpdateFields, Bool.and_eq_true] at hF
    by_cases hup : (!((Dict.lookup "output" kvs).getD Js.null).isNull
        || !((Dict.lookup "instrument" kvs).getD Js.null).isNull) = true
    · have hupP : ((Dict.lookup "output" kvs).getD Js.null).isNull = false
          ∨ ((Dict.lookup "instrument" kvs).getD Js.null).isNull = false := by
        simpa using hup
      have hgood := good_update_participant st.show_state sid Js.null
        ((Dict.lookup "output" kvs).getD .null)
        ((Dict.lookup "instrument" kvs).getD .null) now hshow hF.1 hF.2
      cases hcd : (st.show_state.update_participant sid Js.null
          ((Dict.lookup "output" kvs).getD .null)
          ((Dict.lookup "instrument" kvs).getD .null) now).2.get_chord_for_trigger sid with
      | none =>
        simp [handle_chord_trigger, hg, hkvs, Js.get, bind_ok_eq, hupP, hcd, GoodRes, hgood]
      | some chord =>
        cases hcp : (st.show_state.update_participant sid Js.null
            ((Dict.lookup "output" kvs).getD .null)
            ((Dict.lookup "instrument" kvs).getD .null) now).2.get_participant sid with
        | none =>
          simp [handle_chord_trigger, hg, hkvs, Js.get, bind_ok_eq, hupP, hcd, hcp,
            GoodRes, hgood]
        | some participant =>
          obtain ⟨ho, ht, hi⟩ := chord_good _ sid chord.1 chord.2 hgood (by
            simpa using hcd)
          obtain ⟨m, hm⟩ := send_crowd_ok chord.2 participant.username chord.1 hi ho ht
          simp [handle_chord_trigger, hg, hkvs, Js.get, bind_ok_eq, hupP, hcd, hcp, hm,
            GoodRes, hgood]
    · have hupN : ((Dict.lookup "output" kvs).getD Js.null).isNull = true
          ∧ ((Dict.lookup "instrument" kvs).getD Js.null).isNull = true := by
        simpa [not_or] using hup
      cases hcd : st.show_state.get_chord_for_trigger sid with
      | none =>
        simp [handle_chord_trigger, hg, hkvs, Js.get, bind_ok_eq, hupN.1, hupN.2, hcd, GoodRes, hshow]
      | some chord =>
        cases hcp : st.show_state.get_participant sid with
        | none =>
          simp [handle_chord_trigger, hg, hkvs, Js.get, bind_ok_eq, hupN.1, hupN.2, hcd, hcp,
            GoodRes, hshow]
        | some participant =>
          obtain ⟨ho, ht, hi⟩ := chord_good _ sid chord.1 chord.2 hshow (by
            simpa using hcd)
          obtain ⟨m, hm⟩ := send_crowd_ok chord.2 participant.username chord.1 hi ho ht
          simp [handle_chord_trigger, hg, hkvs, Js.get, bind_ok_eq, hupN.1, hupN.2, hcd, hcp, hm,
            GoodRes, hshow]
  · simp [handle_chord_trigger, hg, GoodRes, hshow]

/-- C1 counterexample: a crowd:join whose payload is the (truthy, non-dict)
number 5 makes `payload.get("role")` raise AttributeError inside the
handler, refuting the claim that no single malformed inbound event lets an
exception escape the dispatcher handler. -/
theorem crowd_join_non_object_payload_raises :
    dispatch Event.crowdJoin ⟨⟨[], none⟩, [], []⟩ "a" (Js.num 5) 0
      = Except.error PyErr.attributeError := by
  have ht : (Js.num 5).truthy = true := by
    simp [Js.truthy]
  simp [dispatch, handle_crowd_join, Js.orElse, ht, Js.get, bind_error_eq]

/-- C1 (amended): processing any single inbound event - connect, solo:join,
solo:activation, crowd:join, canvas:update, chord:trigger, disconnect -
whose payload is well-formed (absent/falsy, or a JSON object whose role and
instrument fields are strings when present and whose activation vectors are
numeric, nonempty for the solo output), against a well-formed store,
completes without an exception escaping the handler and leaves the store
well-formed, so the server can process subsequent events; a truthy
non-object payload instead raises inside the handler (see the
counterexample), where only the surrounding transport layer catches it. -/
theorem dispatch_good_inputs_ok (ev : Event) (st : ServerState) (sid : String)
    (data : Js) (now : ℚ) (hshow : GoodShow st.show_state = true)
    (hdata : goodData ev data = true) :
    GoodRes (dispatch ev st sid data now) = true := by
  cases ev with
  | connect => simpa [dispatch, handle_connect, GoodRes] using hshow
  | soloJoin => simpa [dispatch, handle_solo_join, GoodRes] using hshow
  | soloActivation => exact goodRes_solo_activation st sid data hshow hdata
  | crowdJoin => exact goodRes_crowd_join st sid data now hshow hdata
  | canvasUpdate => exact goodRes_canvas_update st sid data now hshow hdata
  | chordTrigger => exact goodRes_chord_trigger st sid data now hshow hdata
  | disconnectEv =>
    have hleave := good_leave st.show_state sid hshow
    by_cases hc : (st.show_state.leave sid).1 = true <;>
      simp [dispatch, handle_disconnect, hc, GoodRes, hleave]

/-- C1 witness: a crowd:join of a participant with a well-formed payload on
the empty show. -/
theorem dispatch_good_inputs_ok_witness :
    GoodShow (ServerState.mk ⟨[], none⟩ [] []).show_state = true
    ∧ goodData Event.crowdJoin
        (Js.obj [("role", Js.str "participant"), ("username", Js.str "Ann")]) = true
    ∧ GoodRes (dispatch Event.crowdJoin (ServerState.mk ⟨[], none⟩ [] []) "a"
        (Js.obj [("role", Js.str "participant"), ("username", Js.str "Ann")]) 0) = true :=
  ⟨rfl, rfl, dispatch_good_inputs_ok _ _ _ _ _ rfl rfl⟩

end Orchestra
